import Mathlib

/-!
# Verification of `semantic-retina-generation` dataset scripts

A shallow embedding of `split_datasets.py` and
`src/data/datasets/copy_paste.py` from the `semantic-retina-generation`
repository, together with theorems settling the specification claims about
them.

Conventions of the embedding:
* pandas `DataFrame`s are modelled as an ordered list of column names plus a
  list of rows, each row an association list from column name to cell value
  (all cell values are kept as strings, as in a CSV);
* fallible Python operations return `Except PyError`;
* filesystem contents (a CSV already parsed, the result of a directory glob)
  are passed to the embedded functions as explicit arguments;
* library randomness (`numpy` RNG, `random.sample`, sklearn's shuffling) is
  modelled by explicit stream / sampler / shuffle parameters constrained only
  by the documented contracts of those library functions.
-/

set_option autoImplicit false

namespace SemanticRetina

/-- Kinds of Python exception relevant to the embedded code. -/
inductive PyError where
  /-- `NameError`: an undefined global name was evaluated; the payload is the
  name that failed to resolve. -/
  | nameError (n : String)
  /-- `ValueError` (raised by `pd.to_numeric`, `random.sample`, sklearn). -/
  | valueError
  /-- `IndexError`: indexing past the end of a sequence. -/
  | indexError
  /-- File could not be opened (e.g. by `PIL.Image.open`). -/
  | fileNotFound
  deriving DecidableEq, Repr

/-- A row of a pandas `DataFrame`: an association list from column name to
cell value.  Cell values are strings, as in the CSV serialisation. -/
abbrev Row := List (String × String)

/-- Reading a cell: the value of column `c` in row `r`, if present. -/
def getCell (r : Row) (c : String) : Option String :=
  match r with
  | [] => none
  | p :: ps => if p.1 == c then some p.2 else getCell ps c

/-- Reading a cell, with pandas' missing-value string `"nan"` as the default
(`astype(str)` turns a missing value into the string `"nan"`). -/
def getCellD (r : Row) (c : String) : String :=
  (getCell r c).getD "nan"

/-- Writing a cell: replace the value of column `c` in place if the row has
that column, otherwise append the new column at the end (as pandas does when
a new column is assigned). -/
def setCell (r : Row) (c v : String) : Row :=
  match r with
  | [] => [(c, v)]
  | p :: ps => if p.1 == c then (c, v) :: ps else p :: setCell ps c v

@[simp] theorem getCell_setCell_self (r : Row) (c v : String) :
    getCell (setCell r c v) c = some v := by
  induction r with
  | nil => simp [getCell, setCell]
  | cons p ps ih =>
      by_cases h : p.1 = c
      · simp [getCell, setCell, h]
      · simp [getCell, setCell, h, ih]

theorem getCell_setCell_ne (r : Row) {c c' : String} (v : String)
    (h : c' ≠ c) : getCell (setCell r c v) c' = getCell r c' := by
  induction r with
  | nil => simp [getCell, setCell, Ne.symm h]
  | cons p ps ih =>
      by_cases hp : p.1 = c
      · simp [getCell, setCell, hp, Ne.symm h]
      · by_cases hp' : p.1 = c'
        · simp [getCell, setCell, hp, hp', h]
        · simp [getCell, setCell, hp, hp', ih]

theorem getCellD_setCell_ne (r : Row) {c c' : String} (v : String)
    (h : c' ≠ c) : getCellD (setCell r c v) c' = getCellD r c' := by
  simp [getCellD, getCell_setCell_ne r v h]

/-- A pandas `DataFrame`: ordered column names and rows. -/
structure DataFrame where
  cols : List String
  rows : List Row
  deriving DecidableEq, Repr

/-- Column assignment `df[c] = f(row)` where the value may depend on the row:
appends the column name if new, and rewrites every row. -/
def setCol (df : DataFrame) (c : String) (f : Row → String) : DataFrame where
  cols := if c ∈ df.cols then df.cols else df.cols ++ [c]
  rows := df.rows.map (fun r => setCell r c (f r))

/-- Column assignment `df[c] = vals` from a list of per-row values (used for
`idrid_df["Grade"] = noisy_grades`; in the embedded code the value list always
has exactly one entry per row). -/
def setColVals (df : DataFrame) (c : String) (vals : List String) : DataFrame where
  cols := if c ∈ df.cols then df.cols else df.cols ++ [c]
  rows := List.zipWith (fun r v => setCell r c v) df.rows vals

/-- `df.drop(c, axis=1)`. -/
def dropCol (df : DataFrame) (c : String) : DataFrame where
  cols := df.cols.filter (fun x => !(x == c))
  rows := df.rows.map (fun r => r.filter (fun p => !(p.1 == c)))

/-- `pd.concat`: rows are stacked; the column order of the result is the order
of first appearance across the frames (all frames concatenated by the script
share the same column set). -/
def colUnion (a b : List String) : List String :=
  a ++ b.filter (fun c => !(a.contains c))

/-- See `colUnion`. -/
def concatFrames (dfs : List DataFrame) : DataFrame where
  cols := dfs.foldl (fun acc d => colUnion acc d.cols) []
  rows := dfs.foldl (fun acc d => acc ++ d.rows) []

@[simp] theorem setCol_cols (df : DataFrame) (c : String) (f : Row → String) :
    (setCol df c f).cols = if c ∈ df.cols then df.cols else df.cols ++ [c] := rfl

@[simp] theorem setCol_rows (df : DataFrame) (c : String) (f : Row → String) :
    (setCol df c f).rows = df.rows.map (fun r => setCell r c (f r)) := rfl

@[simp] theorem setColVals_cols (df : DataFrame) (c : String) (vals : List String) :
    (setColVals df c vals).cols = if c ∈ df.cols then df.cols else df.cols ++ [c] := rfl

@[simp] theorem setColVals_rows (df : DataFrame) (c : String) (vals : List String) :
    (setColVals df c vals).rows = List.zipWith (fun r v => setCell r c v) df.rows vals := rfl

/-- Membership in a `zipWith` comes from members of the two lists. -/
theorem of_mem_zipWith {α β γ : Type} {f : α → β → γ} {x : γ} :
    ∀ {l₁ : List α} {l₂ : List β}, x ∈ List.zipWith f l₁ l₂ →
      ∃ a b, a ∈ l₁ ∧ b ∈ l₂ ∧ x = f a b
  | [], _, h => by simp at h
  | _ :: _, [], h => by simp at h
  | a :: as, b :: bs, h => by
      rcases List.mem_cons.mp h with h | h
      · exact ⟨a, b, List.mem_cons_self _ _, List.mem_cons_self _ _, h⟩
      · obtain ⟨a', b', ha, hb, hx⟩ := of_mem_zipWith h
        exact ⟨a', b', List.mem_cons_of_mem _ ha, List.mem_cons_of_mem _ hb, hx⟩

/-! ## Embedding of `split_datasets.py` -/

/-- `series.str[5]` on a string series: character at index `i`, or a missing
value (`NaN`) when the string is too short. -/
def pyStrIndex (s : String) (i : Nat) : Option Char :=
  s.data.get? i

/-- `pd.to_numeric` applied to the optional single character produced by
`.str[5]`: a missing value stays missing, a digit parses to its value, and any
other character raises `ValueError` (the default `errors="raise"`). -/
def toNumericChar : Option Char → Except PyError (Option Int)
  | none => .ok none
  | some c => if c.isDigit then .ok (some ((c.toNat : Int) - 48)) else .error .valueError

/-- `pd.to_numeric(df["File"].str[5])` for one row. -/
def toNumericAt5 (f : String) : Except PyError (Option Int) :=
  toNumericChar (pyStrIndex f 5)

/-- The grader-1 filter of `make_fgadr`: `pd.to_numeric(df["File"].str[5])`
over all rows, then `df.loc[grader != 1]`.  A missing value compares unequal
to 1 (`NaN != 1` is `True` in pandas), so rows with short filenames are kept.
The whole computation raises as soon as some character fails `to_numeric`. -/
def filterGraderRows : List Row → Except PyError (List Row)
  | [] => .ok []
  | r :: rs => do
      let g ← toNumericAt5 (getCellD r "File")
      let rest ← filterGraderRows rs
      if g = some 1 then pure rest else pure (r :: rest)

/-- `make_absolute_paths` from `split_datasets.py`: assigns
`df["Image"] = str(image_path) + "/" + df["File"].astype(str)` and likewise
`Label` and `Instance`.  Root paths are carried as the strings `str(...)`
produces for the corresponding `Path` values. -/
def make_absolute_paths (df : DataFrame) (image_path label_path inst_path : String) :
    DataFrame :=
  let df1 := setCol df "Image" (fun r => image_path ++ "/" ++ getCellD r "File")
  let df2 := setCol df1 "Label" (fun r => label_path ++ "/" ++ getCellD r "File")
  setCol df2 "Instance" (fun r => inst_path ++ "/" ++ getCellD r "File")

/-- `make_fgadr` from `split_datasets.py`.  `csvRows` is the parsed content of
`<original_dir>/DR_Seg_Grading_Label.csv`, read with `header=None` and
`names=["File", "Grade"]`, passed in explicitly since the embedding does not
touch the filesystem. -/
def make_fgadr (original_dir processed_dir : String) (exclude_grader_1 : Bool)
    (csvRows : List (String × String)) : Except PyError DataFrame := do
  let fgadr_image_path := original_dir ++ "/Original_Images"
  let fgadr_label_path := processed_dir ++ "/label"
  let fgadr_inst_path := processed_dir ++ "/inst"
  let df0 : DataFrame :=
    ⟨["File", "Grade"], csvRows.map (fun p => [("File", p.1), ("Grade", p.2)])⟩
  let df1 ←
    if exclude_grader_1 then do
      let kept ← filterGraderRows df0.rows
      pure (⟨df0.cols, kept⟩ : DataFrame)
    else pure df0
  let df2 := make_absolute_paths df1 fgadr_image_path fgadr_label_path fgadr_inst_path
  pure (setCol df2 "Source" (fun _ => "FGADR"))

/-- Insertion step of `list.sort()` on strings. -/
def insertSorted (x : String) : List String → List String
  | [] => [x]
  | y :: ys => if x ≤ y then x :: y :: ys else y :: insertSorted x ys

/-- `idrid_files.sort()`. -/
def pySorted (l : List String) : List String :=
  l.foldr insertSorted []

/-- `np.random.randint(lo, hi, size=size)`, with the numpy global RNG
modelled as a stream `rng` of naturals: draw `i` is `lo + rng i % (hi - lo)`,
so every draw lies in `[lo, hi)` as the numpy contract guarantees
(the end point is exclusive). -/
def npRandint (lo hi : Int) (size : Nat) (rng : Nat → Nat) : List Int :=
  (List.range size).map (fun i => lo + ((rng i % (hi - lo).toNat : Nat) : Int))

/-- Tail of `torch.argmax` on a non-empty tensor: index of the running
maximum, scanning positions `i, i+1, ...` with current best index `best` and
best value `bv`. -/
def argmaxAux : List ℚ → Nat → Nat → ℚ → Nat
  | [], _, best, _ => best
  | x :: xs, i, best, bv =>
      if bv < x then argmaxAux xs (i + 1) i x else argmaxAux xs (i + 1) best bv

/-- `torch.argmax` of a 1-dimensional tensor given as a list of scores
(model logits are modelled as rationals; only their order matters to
`argmax`).  Torch rejects an empty tensor; the embedded code only applies it
to the 5-logit output of the ResNet head. -/
def torchArgmax : List ℚ → Nat
  | [] => 0
  | x :: xs => argmaxAux xs 1 0 x

/-- `predict_idrid` from `split_datasets.py`: for each row, open
`row["Image"]`, transform it, run the model and take `argmax`.  The
composition of image loading, `CropShortEdge`/`Resize`/`ToTensor` and the
ResNet forward pass is modelled as one function `model` from the image path to
the 5 output logits. -/
def predict_idrid (model : String → List ℚ) (df : DataFrame) : List Nat :=
  df.rows.map (fun r => torchArgmax (model (getCellD r "Image")))

/-- The grade column computed by `make_idrid` for the frame `df` (after
absolute paths are assigned): model predictions when `predict_grades` is set,
otherwise `np.random.randint(0, 5, size=len(df))`. -/
def idridGrades (predict_grades : Bool) (model : String → List ℚ)
    (df : DataFrame) (rng : Nat → Nat) : List Int :=
  if predict_grades then (predict_idrid model df).map Int.ofNat
  else npRandint 0 5 df.rows.length rng

/-- `make_idrid` from `split_datasets.py`.  `imgFiles` is the list of names
produced by globbing `<processed_dir>/img` (`[f.name for f in ...glob("**/*")]`);
`rng` models the numpy RNG and `model` the grade classifier (see
`predict_idrid`). -/
def make_idrid (processed_dir : String) (predict_grades : Bool)
    (imgFiles : List String) (rng : Nat → Nat) (model : String → List ℚ) :
    DataFrame :=
  let idrid_image_path := processed_dir ++ "/img"
  let idrid_label_path := processed_dir ++ "/label"
  let idrid_inst_path := processed_dir ++ "/inst"
  let files := pySorted imgFiles
  let df0 : DataFrame := ⟨["File"], files.map (fun f => [("File", f)])⟩
  let df1 := make_absolute_paths df0 idrid_image_path idrid_label_path idrid_inst_path
  let noisy_grades := idridGrades predict_grades model df1 rng
  let df2 := setColVals df1 "Grade" (noisy_grades.map toString)
  setCol df2 "Source" (fun _ => "IDRiD")

/-- sklearn's training-set size for a fractional `train_size` on `n` samples:
`n_train = floor(train_size * n)`. -/
def sklearnNTrain (t : ℚ) (n : Nat) : Nat :=
  (Int.toNat ⌊t * (n : ℚ)⌋)

/-- `sklearn.model_selection.train_test_split(rows, train_size=t,
random_state=seed)`, modelled from the sklearn contract: a fractional
`train_size` must lie strictly between 0 and 1 and neither resulting set may
be empty (otherwise `ValueError`); the rows are shuffled by the seeded RNG
(modelled by the `shuffle` parameter) and split at `n_train = floor(t * n)`. -/
def train_test_split {α : Type} (rows : List α) (t : ℚ)
    (shuffle : List α → List α) : Except PyError (List α × List α) :=
  if t ≤ 0 ∨ 1 ≤ t then .error .valueError
  else
    let nTrain := sklearnNTrain t rows.length
    if nTrain = 0 then .error .valueError
    else
      let s := shuffle rows
      .ok (s.take nTrain, s.drop nTrain)

/-- Modelled from the spec: the CLI options of the split script.  The options
module `src/options/split.py` (`get_args`) is part of the repository but not
among the provided source files; the spec lists its flags as "dataset
directory paths, `--train_size`, `--seed`, `--exclude_grader_1`,
`--predict_grades`". -/
structure Args where
  fgadr_original_dir : String
  fgadr_processed_dir : String
  idrid_processed_dir : String
  diaretdb1_processed_dir : String
  train_size : ℚ
  seed : Nat
  exclude_grader_1 : Bool
  predict_grades : Bool
  deriving Repr

/-- The external state a run of the split script reads, passed explicitly:
parsed FGADR grading CSV, the glob results for the IDRiD and DIARETDB1
image directories, the two numpy RNG streams consumed by the two
`np.random.randint` calls, the grade classifier, and sklearn's seeded
shuffle. -/
structure Env where
  fgadrCsv : List (String × String)
  idridFiles : List String
  diaretdb1Files : List String
  rng : Nat → Nat
  rng2 : Nat → Nat
  model : String → List ℚ
  shuffle : List Row → List Row

/-- The global names bound in the module `split_datasets` when `main` runs:
the imported names of lines 7–19 and the five functions the module defines
besides `main` (plus `main` itself). -/
def splitDatasetsGlobals : List String :=
  ["Path", "np", "pd", "torch", "T", "Image", "train_test_split", "nn",
   "models", "get_args", "CropShortEdge", "load_model", "make_fgadr",
   "make_idrid", "predict_idrid", "make_absolute_paths", "main"]

/-- Evaluating a global name in the module namespace: `NameError` when the
name is not bound. -/
def resolveGlobal (n : String) : Except PyError Unit :=
  if n ∈ splitDatasetsGlobals then .ok () else .error (.nameError n)

/-- What a (possibly aborted) run of `main` did: which dataset frames were
built, and which CSV files were written. -/
structure MainTrace where
  framesBuilt : List String
  csvsWritten : List (String × DataFrame)
  deriving Repr

/-- `main` of `split_datasets.py`, translated as far as any execution of the
module reaches.  After building the FGADR and IDRiD frames it evaluates the
global name `make_diaretdb1`, which is neither defined nor imported in the
module, so every execution that gets that far stops with a `NameError`; the
statements after that call (concatenation, split, CSV writes) are unreachable
and the translation returns at the (decidably dead) success branch of the
name lookup.  `mainRunModelled` below completes the run with a spec-modelled
`make_diaretdb1` instead. -/
def mainRun (opt : Args) (env : Env) : MainTrace × Except PyError Unit :=
  match make_fgadr opt.fgadr_original_dir opt.fgadr_processed_dir
      opt.exclude_grader_1 env.fgadrCsv with
  | .error e => (⟨[], []⟩, .error e)
  | .ok _fgadr_df =>
      let _idrid_df := make_idrid opt.idrid_processed_dir opt.predict_grades
        env.idridFiles env.rng env.model
      match resolveGlobal "make_diaretdb1" with
      | .error e => (⟨["FGADR", "IDRiD"], []⟩, .error e)
      | .ok _ => (⟨["FGADR", "IDRiD"], []⟩, .ok ())

/-- Modelled from the spec: `make_diaretdb1`, called by `main` but not among
the provided source files.  By the spec's filesystem layout convention
(`<root>/img`, `<root>/label`, `<root>/inst` per dataset) and dataset-record
shape it is the DIARETDB1 analogue of `make_idrid`, with source tag
`"DIARETDB1"`. -/
def make_diaretdb1 (processed_dir : String) (predict_grades : Bool)
    (imgFiles : List String) (rng : Nat → Nat) (model : String → List ℚ) :
    DataFrame :=
  let image_path := processed_dir ++ "/img"
  let label_path := processed_dir ++ "/label"
  let inst_path := processed_dir ++ "/inst"
  let files := pySorted imgFiles
  let df0 : DataFrame := ⟨["File"], files.map (fun f => [("File", f)])⟩
  let df1 := make_absolute_paths df0 image_path label_path inst_path
  let noisy_grades := idridGrades predict_grades model df1 rng
  let df2 := setColVals df1 "Grade" (noisy_grades.map toString)
  setCol df2 "Source" (fun _ => "DIARETDB1")

/-- The part of `main` from `pd.concat` onwards: concatenate the three
frames, drop the redundant `File` column, split train/test, and write the
three CSV files (returned as (path, frame) pairs in the order written). -/
def mainTail (fgadr_df idrid_df diaretdb1_df : DataFrame) (t : ℚ)
    (shuffle : List Row → List Row) :
    Except PyError (List (String × DataFrame)) :=
  let combined_df :=
    dropCol (concatFrames [fgadr_df, idrid_df, diaretdb1_df]) "File"
  match train_test_split combined_df.rows t shuffle with
  | .error e => .error e
  | .ok (combined_train, combined_test) =>
      .ok [("data/all.csv", combined_df),
           ("data/train.csv", ⟨combined_df.cols, combined_train⟩),
           ("data/test.csv", ⟨combined_df.cols, combined_test⟩)]

/-- `main` of `split_datasets.py` with the missing `make_diaretdb1` supplied
by its spec model, so that the behaviour of the concatenation, `File`-column
drop, train/test split and CSV writes can be stated. -/
def mainRunModelled (opt : Args) (env : Env) :
    Except PyError (List (String × DataFrame)) :=
  match make_fgadr opt.fgadr_original_dir opt.fgadr_processed_dir
      opt.exclude_grader_1 env.fgadrCsv with
  | .error e => .error e
  | .ok fgadr_df =>
      mainTail fgadr_df
        (make_idrid opt.idrid_processed_dir opt.predict_grades
          env.idridFiles env.rng env.model)
        (make_diaretdb1 opt.diaretdb1_processed_dir opt.predict_grades
          env.diaretdb1Files env.rng2 env.model)
        opt.train_size env.shuffle

/-! ## Embedding of `src/data/datasets/copy_paste.py` -/

/-- Index of the last `'.'` in a character list (`str.rfind('.')`): the last
dot of `c :: cs` is the last dot of `cs` shifted by one when `cs` has one,
and otherwise position 0 exactly when `c` is a dot. -/
def lastDotIdx : List Char → Option Nat
  | [] => none
  | c :: cs =>
      match lastDotIdx cs with
      | some j => some (j + 1)
      | none => if c == '.' then some 0 else none

/-- `pathlib.PurePath.stem` of a file name: the name without its last suffix,
where the suffix starts at the last dot provided that dot is neither the
first nor the last character. -/
def pyStem (name : String) : String :=
  match lastDotIdx name.data with
  | none => name
  | some i =>
      if 0 < i ∧ i + 1 < name.data.length then String.mk (name.data.take i)
      else name

/-- Python list indexing `l[i]` for a non-negative index, as an `Option`
(`IndexError` when out of range is raised by the caller). -/
def pyIndex {α : Type} : List α → Nat → Option α
  | [], _ => none
  | x :: _, 0 => some x
  | _ :: xs, n + 1 => pyIndex xs n

/-- `int()` of a one-character string: the digit's value, or `ValueError`. -/
def pyIntOfChar (c : Char) : Except PyError Int :=
  if c.isDigit then .ok ((c.toNat : Int) - 48) else .error .valueError

/-- `int(f.stem[10])` from `CopyPasteDataset.__init__`: character 10 of the
stem (`IndexError` when the stem is shorter), parsed as an integer. -/
def copyPasteGrade (fname : String) : Except PyError Int :=
  match (pyStem fname).data.get? 10 with
  | none => .error .indexError
  | some c => pyIntOfChar c

/-- `random.sample(population, k)` modelled by its contract: any function
that, whenever `k` is within range, returns `k` elements drawn from the
population.  (`random.sample` raises `ValueError` for `k` negative or larger
than the population; that check lives in `CopyPasteDataset.init`.) -/
structure Sampler where
  sample : List String → Nat → List String
  length_sample : ∀ pop k, k ≤ pop.length → (sample pop k).length = k
  sample_subset : ∀ pop k, k ≤ pop.length → ∀ x ∈ sample pop k, x ∈ pop

/-- A concrete `Sampler`: take the first `k` elements. -/
def takeSampler : Sampler where
  sample pop k := pop.take k
  length_sample pop k h := by simp [h]
  sample_subset pop k _ x hx := List.take_subset _ _ hx

/-- The class attribute `CopyPasteDataset.transformed_dir`, as normalised by
`Path(...)` (a trailing slash is dropped by `Path`). -/
def transformedDir : String :=
  "/vol/bitbucket/js6317/individual-project/semantic-dr-gan/results/copypaste/transformed"

/-- The class attribute `CopyPasteDataset.label_dir`, as normalised by
`Path(...)`. -/
def labelDir : String :=
  "/vol/bitbucket/js6317/individual-project/semantic-dr-gan/results/copypaste/label"

/-- The state of a constructed `CopyPasteDataset`: exactly the fields
`__init__` assigns.  Images are modelled as their raw string contents and
torchvision transforms as functions on them. -/
structure CopyPasteDataset where
  label_path : String
  transformed_path : String
  files : List String
  grades : List Int
  label_transform : Option (String → String)
  image_transform : Option (String → String)
  common_transform : Option (String → String)
  return_label : Bool
  return_grade : Bool
  return_transformed : Bool

/-- `CopyPasteDataset.__init__`.  `all_files` is the result of
`self.label_path.glob("**/*")`, passed in as the list of entry names (the
code only ever uses `f.name` and `f.stem`); `smp` models `random.sample`.
`n_samples == -1` keeps every globbed file; otherwise `random.sample` raises
`ValueError` when `n_samples` is negative or exceeds the population.  Each
kept file contributes its name to `files` and `int(f.stem[10])` to
`grades`. -/
def CopyPasteDataset.init (all_files : List String) (smp : Sampler)
    (n_samples : Int) (image_transform label_transform common_transform :
    Option (String → String)) (return_label return_grade return_transformed :
    Bool) : Except PyError CopyPasteDataset := do
  let subset_files ←
    if n_samples = -1 then pure all_files
    else if n_samples < 0 ∨ (all_files.length : Int) < n_samples then
      Except.error PyError.valueError
    else pure (smp.sample all_files n_samples.toNat)
  let grades ← subset_files.mapM copyPasteGrade
  pure
    { label_path := labelDir
      transformed_path := transformedDir
      files := subset_files
      grades := grades
      label_transform := label_transform
      image_transform := image_transform
      common_transform := common_transform
      return_label := return_label
      return_grade := return_grade
      return_transformed := return_transformed }

/-- `CopyPasteDataset.__len__`. -/
def CopyPasteDataset.len (ds : CopyPasteDataset) : Nat :=
  ds.files.length

/-- The dictionary `__getitem__` returns: the keys `"label"`,
`"transformed"` and `"grade"`, each present when the corresponding
`return_*` flag is set. -/
structure Sample where
  label : Option String
  transformed : Option String
  grade : Option Int
  deriving Repr

/-- `CopyPasteDataset.__getitem__`.  `fs` maps a path to the contents of the
file there, if any (`Image.open` of a missing file raises).  Besides the
sample, the result carries the post-call dataset state (the method performs
no field assignment, so the translation threads the state unchanged) and the
list of paths read, recording the lazy file loads. -/
def CopyPasteDataset.getitem (ds : CopyPasteDataset)
    (fs : String → Option String) (item : Nat) :
    Except PyError (Sample × CopyPasteDataset × List String) := do
  let filename ←
    match pyIndex ds.files item with
    | some f => pure f
    | none => Except.error PyError.indexError
  let grade ←
    match pyIndex ds.grades item with
    | some g => pure g
    | none => Except.error PyError.indexError
  let (lbl, reads₁) ←
    if ds.return_label then do
      let path := ds.label_path ++ "/" ++ filename
      match fs path with
      | none => Except.error PyError.fileNotFound
      | some content =>
          let label :=
            match ds.label_transform with
            | some t => t content
            | none => content
          pure (some label, [path])
    else pure (none, [])
  let (timg, reads₂) ←
    if ds.return_transformed then do
      let path := ds.transformed_path ++ "/" ++ filename
      match fs path with
      | none => Except.error PyError.fileNotFound
      | some content =>
          let image :=
            match ds.image_transform with
            | some t => t content
            | none => content
          let image :=
            match ds.common_transform with
            | some t => t image
            | none => image
          pure (some image, [path])
    else pure (none, [])
  let g : Option Int := if ds.return_grade then some grade else none
  pure (⟨lbl, timg, g⟩, ds, reads₁ ++ reads₂)

/-! ## Claims -/

/-- C3: for every copy-paste sample file whose name has the form
`copypaste_G_XXXXX.png` with `G` a decimal digit, `CopyPasteDataset.__init__`
records as that sample's grade the integer value of `G`, parsed from the
fixed character offset 10 of the filename stem. -/
theorem claim_C3 (g x₁ x₂ x₃ x₄ x₅ : Char) (hg : g.isDigit) :
    copyPasteGrade (String.mk
      ['c','o','p','y','p','a','s','t','e','_', g, '_', x₁, x₂, x₃, x₄, x₅,
       '.','p','n','g']) = Except.ok ((g.toNat : Int) - 48) ∧
    ∀ ds, CopyPasteDataset.init
        [String.mk
          ['c','o','p','y','p','a','s','t','e','_', g, '_', x₁, x₂, x₃, x₄, x₅,
           '.','p','n','g']]
        takeSampler (-1) none none none true true true = Except.ok ds →
      ds.grades = [(g.toNat : Int) - 48] := by
  have hgrade : copyPasteGrade (String.mk
      ['c','o','p','y','p','a','s','t','e','_', g, '_', x₁, x₂, x₃, x₄, x₅,
       '.','p','n','g']) = Except.ok ((g.toNat : Int) - 48) := by
    simp [copyPasteGrade, pyStem, lastDotIdx, pyIntOfChar, hg, String.mk]
  refine ⟨hgrade, fun ds h => ?_⟩
  simp [CopyPasteDataset.init, List.mapM.loop, hgrade] at h
  subst h
  rfl

/-- C3 witness: the concrete filename `copypaste_3_00001.png` yields grade 3. -/
theorem claim_C3_witness :
    copyPasteGrade (String.mk
      ['c','o','p','y','p','a','s','t','e','_','3','_','0','0','0','0','1',
       '.','p','n','g']) = Except.ok 3 := by
  have h := (claim_C3 '3' '0' '0' '0' '0' '1' (by decide)).1
  norm_num at h
  exact h

/-- `Except` computation rules used to evaluate the embedded `do` blocks. -/
@[simp] theorem exceptPure {α : Type} (a : α) :
    (pure a : Except PyError α) = Except.ok a := rfl

/-- See `exceptPure`. -/
@[simp] theorem exceptBind_ok {α β : Type} (a : α) (f : α → Except PyError β) :
    (Except.ok a >>= f : Except PyError β) = f a := rfl

/-- See `exceptPure`. -/
@[simp] theorem exceptBind_error {α β : Type} (e : PyError)
    (f : α → Except PyError β) :
    (Except.error e >>= f : Except PyError β) = Except.error e := rfl

/-- See `exceptPure`. -/
@[simp] theorem exceptMap_ok {α β : Type} (a : α) (f : α → β) :
    (f <$> (Except.ok a : Except PyError α)) = Except.ok (f a) := rfl

/-- See `exceptPure`. -/
@[simp] theorem exceptMap_error {α β : Type} (e : PyError) (f : α → β) :
    (f <$> (Except.error e : Except PyError α)) =
      (Except.error e : Except PyError β) := rfl

/-- Inversion for a mapped `Except` computation that succeeded. -/
theorem exceptMap_eq_ok {α β : Type} {f : α → β} {x : Except PyError α}
    {b : β} (h : f <$> x = Except.ok b) : ∃ a, x = Except.ok a ∧ f a = b := by
  cases x with
  | error e => simp at h
  | ok a => exact ⟨a, rfl, by simpa using h⟩

/-- C10: with `n_samples == -1`, the length of the dataset equals the number
of files found by globbing the label directory; with `0 ≤ n_samples ≤` that
number, the length equals `n_samples`; and construction with `n_samples`
greater than the number of globbed files fails (`random.sample` raises
`ValueError`). -/
theorem claim_C10 (all_files : List String) (smp : Sampler) (n_samples : Int)
    (it lt ct : Option (String → String)) (rl rg rt : Bool) :
    (∀ ds, CopyPasteDataset.init all_files smp (-1) it lt ct rl rg rt =
        Except.ok ds → ds.len = all_files.length) ∧
    (0 ≤ n_samples → n_samples ≤ (all_files.length : Int) →
      ∀ ds, CopyPasteDataset.init all_files smp n_samples it lt ct rl rg rt =
        Except.ok ds → (ds.len : Int) = n_samples) ∧
    ((all_files.length : Int) < n_samples →
      CopyPasteDataset.init all_files smp n_samples it lt ct rl rg rt =
        Except.error PyError.valueError) := by
  refine ⟨fun ds h => ?_, fun h0 hle ds h => ?_, fun hgt => ?_⟩
  · unfold CopyPasteDataset.init at h
    rw [if_pos rfl] at h
    rw [exceptPure, exceptBind_ok] at h
    obtain ⟨grades, _, hds⟩ := exceptMap_eq_ok h
    subst hds
    rfl
  · have hne : ¬ n_samples = -1 := by omega
    have hcond : ¬ (n_samples < 0 ∨ (all_files.length : Int) < n_samples) := by
      omega
    unfold CopyPasteDataset.init at h
    rw [if_neg hne, if_neg hcond] at h
    rw [exceptPure, exceptBind_ok] at h
    obtain ⟨grades, _, hds⟩ := exceptMap_eq_ok h
    subst hds
    have hlen : n_samples.toNat ≤ all_files.length := by omega
    simp [CopyPasteDataset.len,
      smp.length_sample all_files n_samples.toNat hlen]
    omega
  · have hne : ¬ n_samples = -1 := by omega
    have hcond : n_samples < 0 ∨ (all_files.length : Int) < n_samples :=
      Or.inr hgt
    unfold CopyPasteDataset.init
    rw [if_neg hne, if_pos hcond]
    rfl

/-- C10 witness: a one-file glob with `n_samples = 1` yields a dataset of
length 1, and `n_samples = 2` fails. -/
theorem claim_C10_witness :
    (0 : Int) ≤ 1 ∧ (1 : Int) ≤ (([String.mk
        ['c','o','p','y','p','a','s','t','e','_','3','_','0','0','0','0','1',
         '.','p','n','g']] : List String).length : Int) ∧
    (∀ ds, CopyPasteDataset.init [String.mk
        ['c','o','p','y','p','a','s','t','e','_','3','_','0','0','0','0','1',
         '.','p','n','g']] takeSampler 1 none none none true true true =
      Except.ok ds → (ds.len : Int) = 1) ∧
    CopyPasteDataset.init [String.mk
        ['c','o','p','y','p','a','s','t','e','_','3','_','0','0','0','0','1',
         '.','p','n','g']] takeSampler 2 none none none true true true =
      Except.error PyError.valueError := by
  refine ⟨by norm_num, by norm_num, ?_, ?_⟩
  · exact (claim_C10 _ takeSampler 1 none none none true true true).2.1
      (by norm_num) (by norm_num)
  · exact (claim_C10 _ takeSampler 2 none none none true true true).2.2
      (by norm_num)

/-- C9: `__getitem__` leaves the dataset state (files, grades, transforms and
flags) unchanged, `__len__` is just the length of the file list fixed at
construction, and the only file loads `__getitem__` performs are the lazy
label/transformed reads for the requested index's filename. -/
theorem claim_C9 (ds : CopyPasteDataset) (fs : String → Option String)
    (item : Nat) (out : Sample × CopyPasteDataset × List String)
    (h : ds.getitem fs item = Except.ok out) :
    ds.len = ds.files.length ∧
    out.2.1 = ds ∧
    ∃ name, pyIndex ds.files item = some name ∧
      ∀ p ∈ out.2.2, p = ds.label_path ++ "/" ++ name ∨
        p = ds.transformed_path ++ "/" ++ name := by
  unfold CopyPasteDataset.getitem at h
  cases hf : pyIndex ds.files item with
  | none => simp [hf] at h
  | some name =>
  simp only [hf] at h
  cases hgr : pyIndex ds.grades item with
  | none => simp [hgr] at h
  | some grade =>
  simp only [hgr, exceptPure, exceptBind_ok] at h
  cases hrl : ds.return_label with
  | false =>
      cases hrt : ds.return_transformed with
      | false =>
          simp only [hrl, hrt, Bool.false_eq_true, if_false, exceptPure,
            exceptBind_ok, reduceIte] at h
          injection h with h
          subst h
          exact ⟨rfl, rfl, name, rfl, by simp⟩
      | true =>
          cases ht : fs (ds.transformed_path ++ "/" ++ name) with
          | none => simp [hrl, hrt, ht] at h
          | some c =>
              simp only [hrl, hrt, ht, Bool.false_eq_true, if_false,
                exceptPure, exceptBind_ok, reduceIte] at h
              injection h with h
              subst h
              exact ⟨rfl, rfl, name, rfl, by simp⟩
  | true =>
      cases hl : fs (ds.label_path ++ "/" ++ name) with
      | none => simp [hrl, hl] at h
      | some c =>
      cases hrt : ds.return_transformed with
      | false =>
          simp only [hrl, hrt, hl, Bool.false_eq_true, if_false, exceptPure,
            exceptBind_ok, reduceIte] at h
          injection h with h
          subst h
          exact ⟨rfl, rfl, name, rfl, by simp⟩
      | true =>
          cases ht : fs (ds.transformed_path ++ "/" ++ name) with
          | none => simp [hrl, hrt, hl, ht] at h
          | some c' =>
              simp only [hrl, hrt, hl, ht, Bool.false_eq_true, if_false,
                exceptPure, exceptBind_ok, reduceIte] at h
              injection h with h
              subst h
              exact ⟨rfl, rfl, name, rfl, by simp⟩

/-- `pyIndex` commutes with `List.map`. -/
theorem pyIndex_map {α β : Type} (f : α → β) :
    ∀ (l : List α) (i : Nat), pyIndex (l.map f) i = (pyIndex l i).map f
  | [], _ => rfl
  | _ :: _, 0 => rfl
  | _ :: xs, n + 1 => pyIndex_map f xs n

/-- The per-row action of `make_absolute_paths`. -/
def absRow (image_path label_path inst_path : String) (r : Row) : Row :=
  let r1 := setCell r "Image" (image_path ++ "/" ++ getCellD r "File")
  let r2 := setCell r1 "Label" (label_path ++ "/" ++ getCellD r1 "File")
  setCell r2 "Instance" (inst_path ++ "/" ++ getCellD r2 "File")

theorem make_absolute_paths_rows (df : DataFrame)
    (image_path label_path inst_path : String) :
    (make_absolute_paths df image_path label_path inst_path).rows =
      df.rows.map (absRow image_path label_path inst_path) := by
  simp [make_absolute_paths, absRow, List.map_map]

/-- How `absRow` affects each cell: it writes the three path columns from the
row's own `File` value and the fixed roots, and leaves every other column
unchanged. -/
theorem absRow_getCell (image_path label_path inst_path : String) (r : Row) :
    getCell (absRow image_path label_path inst_path r) "Image" =
      some (image_path ++ "/" ++ getCellD r "File") ∧
    getCell (absRow image_path label_path inst_path r) "Label" =
      some (label_path ++ "/" ++ getCellD r "File") ∧
    getCell (absRow image_path label_path inst_path r) "Instance" =
      some (inst_path ++ "/" ++ getCellD r "File") ∧
    ∀ c, c ≠ "Image" → c ≠ "Label" → c ≠ "Instance" →
      getCell (absRow image_path label_path inst_path r) c = getCell r c := by
  unfold absRow
  have hFI : ("File" : String) ≠ "Image" := by decide
  have hFL : ("File" : String) ≠ "Label" := by decide
  have hIL : ("Image" : String) ≠ "Label" := by decide
  have hIN : ("Image" : String) ≠ "Instance" := by decide
  have hLN : ("Label" : String) ≠ "Instance" := by decide
  refine ⟨?_, ?_, ?_, ?_⟩
  · rw [getCell_setCell_ne _ _ hIN, getCell_setCell_ne _ _ hIL,
      getCell_setCell_self]
  · rw [getCell_setCell_ne _ _ hLN, getCell_setCell_self,
      getCellD_setCell_ne _ _ hFI]
  · rw [getCell_setCell_self, getCellD_setCell_ne _ _ hFL,
      getCellD_setCell_ne _ _ hFI]
  · intro c hc1 hc2 hc3
    rw [getCell_setCell_ne _ _ hc3, getCell_setCell_ne _ _ hc2,
      getCell_setCell_ne _ _ hc1]

/-- `absRow` keeps the `File` cell. -/
theorem absRow_getCellD_File (image_path label_path inst_path : String)
    (r : Row) :
    getCellD (absRow image_path label_path inst_path r) "File" =
      getCellD r "File" := by
  have h := (absRow_getCell image_path label_path inst_path r).2.2.2 "File"
    (by decide) (by decide) (by decide)
  simp [getCellD, h]

/-- C7: `make_absolute_paths` computes each output row from that row alone:
row `i` of the result exists exactly when row `i` of the input does, its
`Image`, `Label` and `Instance` cells are the corresponding root-path string,
a `/` separator, then the row's own `File` value, and every other cell of the
row is untouched. -/
theorem claim_C7 (df : DataFrame) (image_path label_path inst_path : String)
    (i : Nat) (r : Row) (h : pyIndex df.rows i = some r) :
    ∃ r', pyIndex (make_absolute_paths df image_path label_path inst_path).rows
        i = some r' ∧
      getCell r' "Image" = some (image_path ++ "/" ++ getCellD r "File") ∧
      getCell r' "Label" = some (label_path ++ "/" ++ getCellD r "File") ∧
      getCell r' "Instance" = some (inst_path ++ "/" ++ getCellD r "File") ∧
      ∀ c, c ≠ "Image" → c ≠ "Label" → c ≠ "Instance" →
        getCell r' c = getCell r c := by
  obtain ⟨h1, h2, h3, h4⟩ := absRow_getCell image_path label_path inst_path r
  refine ⟨absRow image_path label_path inst_path r, ?_, h1, h2, h3, h4⟩
  rw [make_absolute_paths_rows, pyIndex_map, h]
  rfl

/-- C7 witness: a concrete one-row frame. -/
theorem claim_C7_witness :
    ∃ r', pyIndex (make_absolute_paths ⟨["File"], [[("File", "a.png")]]⟩
        "ip" "lp" "np").rows 0 = some r' ∧
      getCell r' "Image" = some ("ip" ++ "/" ++ getCellD [("File", "a.png")] "File") ∧
      getCell r' "Label" = some ("lp" ++ "/" ++ getCellD [("File", "a.png")] "File") ∧
      getCell r' "Instance" = some ("np" ++ "/" ++ getCellD [("File", "a.png")] "File") ∧
      ∀ c, c ≠ "Image" → c ≠ "Label" → c ≠ "Instance" →
        getCell r' c = getCell [("File", "a.png")] c :=
  claim_C7 ⟨["File"], [[("File", "a.png")]]⟩ "ip" "lp" "np" 0
    [("File", "a.png")] rfl

/-- A `File` value survives the grader-1 filter when its character at index 5
does not parse to the number 1 (missing characters compare unequal to 1). -/
def notGrader1 (f : String) : Bool :=
  match toNumericAt5 f with
  | Except.ok g => if g = some 1 then false else true
  | Except.error _ => true

/-- On success, the grader filter keeps exactly the rows whose `File` cell
satisfies `notGrader1`. -/
theorem filterGraderRows_ok :
    ∀ (rows kept : List Row), filterGraderRows rows = Except.ok kept →
      kept = rows.filter (fun r => notGrader1 (getCellD r "File"))
  | [], kept, h => by
      simp only [filterGraderRows] at h
      injection h with h
      subst h
      rfl
  | r :: rs, kept, h => by
      unfold filterGraderRows at h
      cases hg : toNumericAt5 (getCellD r "File") with
      | error e => rw [hg] at h; exact absurd h (by simp)
      | ok g =>
          rw [hg] at h
          cases hrest : filterGraderRows rs with
          | error e => rw [hrest] at h; exact absurd h (by simp)
          | ok rest =>
              rw [hrest] at h
              simp only [exceptBind_ok, exceptPure] at h
              have ih := filterGraderRows_ok rs rest hrest
              by_cases hone : g = some 1
              · rw [if_pos hone] at h
                injection h with h
                subst h
                have hng : notGrader1 (getCellD r "File") = false := by
                  simp [notGrader1, hg, hone]
                rw [List.filter_cons, hng]
                simpa using ih
              · rw [if_neg hone] at h
                injection h with h
                subst h
                have hng : notGrader1 (getCellD r "File") = true := by
                  simp [notGrader1, hg, hone]
                rw [List.filter_cons, hng]
                simpa using ih

/-- The `File` cell of the freshly built CSV row. -/
theorem getCellD_pairRow (a b : String) :
    getCellD [("File", a), ("Grade", b)] "File" = a := by
  simp [getCellD, getCell]

/-- The `File` cell of a finished FGADR row (after path columns and the
`Source` tag are added). -/
theorem fgadrRow_File (image_path label_path inst_path src : String) (r : Row) :
    getCellD (setCell (absRow image_path label_path inst_path r) "Source" src)
      "File" = getCellD r "File" := by
  rw [getCellD_setCell_ne _ _ (by decide : ("File" : String) ≠ "Source"),
    absRow_getCellD_File]

/-- `File` values of finished FGADR rows built from filtered CSV rows. -/
theorem fgadr_file_chain (image_path label_path inst_path src : String) :
    ∀ csv : List (String × String),
      List.map
        (fun r => getCellD
          (setCell (absRow image_path label_path inst_path r) "Source" src)
          "File")
        (List.filter (fun r => notGrader1 (getCellD r "File"))
          (csv.map (fun p => [("File", p.1), ("Grade", p.2)]))) =
      List.map Prod.fst (csv.filter (fun p => notGrader1 p.1))
  | [] => rfl
  | p :: ps => by
      simp only [List.map_cons, List.filter_cons, getCellD_pairRow]
      by_cases hp : notGrader1 p.1 = true
      · simp only [hp, if_true, List.map_cons]
        rw [fgadrRow_File, getCellD_pairRow,
          fgadr_file_chain image_path label_path inst_path src ps]
      · simp only [Bool.not_eq_true] at hp
        simp only [hp, Bool.false_eq_true, if_false]
        exact fgadr_file_chain image_path label_path inst_path src ps

/-- `File` values of finished FGADR rows when no filtering happens. -/
theorem fgadr_file_chain_all (image_path label_path inst_path src : String) :
    ∀ csv : List (String × String),
      List.map
        (fun x : String × String => getCellD
          (setCell (absRow image_path label_path inst_path
            [("File", x.1), ("Grade", x.2)]) "Source" src)
          "File") csv =
      List.map Prod.fst csv
  | [] => rfl
  | p :: ps => by
      simp only [List.map_cons]
      rw [fgadrRow_File, getCellD_pairRow,
        fgadr_file_chain_all image_path label_path inst_path src ps]

/-- C8: with `exclude_grader_1` set, `make_fgadr` returns exactly the rows of
the FGADR grading CSV whose `File` value's character at index 5 does not
parse to the number 1; with the flag unset, no row is removed. -/
theorem claim_C8 (original_dir processed_dir : String)
    (csvRows : List (String × String)) :
    (∀ df, make_fgadr original_dir processed_dir true csvRows = Except.ok df →
      df.rows.map (fun r => getCellD r "File") =
        (csvRows.filter (fun p => notGrader1 p.1)).map Prod.fst) ∧
    (∀ df, make_fgadr original_dir processed_dir false csvRows = Except.ok df →
      df.rows.map (fun r => getCellD r "File") = csvRows.map Prod.fst) := by
  constructor
  · intro df h
    unfold make_fgadr at h
    rw [if_pos rfl] at h
    cases hf : filterGraderRows
        ((⟨["File", "Grade"],
          csvRows.map fun p => [("File", p.1), ("Grade", p.2)]⟩ :
            DataFrame).rows) with
    | error e => rw [hf] at h; exact absurd h (by simp)
    | ok kept =>
        rw [hf] at h
        simp only [exceptBind_ok, exceptPure] at h
        injection h with h
        subst h
        have hkept := filterGraderRows_ok _ _ hf
        simp only [setCol_rows, make_absolute_paths_rows, List.map_map,
          Function.comp_def]
        rw [hkept]
        exact fgadr_file_chain _ _ _ _ csvRows
  · intro df h
    unfold make_fgadr at h
    rw [if_neg (by simp)] at h
    simp only [exceptPure, exceptBind_ok] at h
    injection h with h
    subst h
    simp only [setCol_rows, make_absolute_paths_rows, List.map_map,
      Function.comp_def]
    exact fgadr_file_chain_all _ _ _ _ csvRows

/-- C8 witness: a two-row CSV where exactly the grader-1 row is removed when
the flag is set, while the grader-2 row survives. -/
theorem claim_C8_witness :
    (∀ df, make_fgadr "o" "p" true [("0001_1.png", "2"), ("0002_2.png", "3")] =
        Except.ok df →
      df.rows.map (fun r => getCellD r "File") =
        ([("0001_1.png", "2"), ("0002_2.png", "3")].filter
          (fun p => notGrader1 p.1)).map Prod.fst) ∧
    ([("0001_1.png", "2"), ("0002_2.png", "3")].filter
        (fun p => notGrader1 p.1)).map Prod.fst = ["0002_2.png"] :=
  ⟨(claim_C8 "o" "p" [("0001_1.png", "2"), ("0002_2.png", "3")]).1,
    by decide⟩

/-- The running-best index of `argmaxAux` stays below the scanned length. -/
theorem argmaxAux_lt (xs : List ℚ) : ∀ (i best : Nat) (bv : ℚ), best < i →
    argmaxAux xs i best bv < i + xs.length := by
  induction xs with
  | nil =>
      intro i best bv h
      simpa [argmaxAux] using Nat.lt_of_lt_of_le h (Nat.le_add_right i 0)
  | cons x xs ih =>
      intro i best bv h
      simp only [argmaxAux, List.length_cons]
      by_cases hc : bv < x
      · rw [if_pos hc]
        have := ih (i + 1) i x (Nat.lt_succ_self i)
        omega
      · rw [if_neg hc]
        have := ih (i + 1) best bv (by omega)
        omega

/-- `torch.argmax` of a non-empty tensor is a valid index. -/
theorem torchArgmax_lt (l : List ℚ) (h : l ≠ []) : torchArgmax l < l.length := by
  cases l with
  | nil => exact absurd rfl h
  | cons x xs =>
      have := argmaxAux_lt xs 1 0 x Nat.zero_lt_one
      simp only [torchArgmax, List.length_cons]
      omega

/-- Every draw of `np.random.randint(0, 5, ...)` lies in `[0, 4]`. -/
theorem npRandint_mem_range (size : Nat) (rng : Nat → Nat) :
    ∀ g ∈ npRandint 0 5 size rng, 0 ≤ g ∧ g ≤ 4 := by
  intro g hg
  simp only [npRandint, List.mem_map, List.mem_range] at hg
  obtain ⟨i, _, hgi⟩ := hg
  have hmod : rng i % (5 - 0 : Int).toNat < 5 := Nat.mod_lt _ (by decide)
  omega

/-- Every grade `make_idrid` computes, in either mode, lies in `[0, 4]`,
provided the classifier really produces 5 logits per image (as the
`load_model` head guarantees). -/
theorem idridGrades_mem_range (predict_grades : Bool) (model : String → List ℚ)
    (df : DataFrame) (rng : Nat → Nat)
    (hm : ∀ s, (model s).length = 5) :
    ∀ g ∈ idridGrades predict_grades model df rng, 0 ≤ g ∧ g ≤ 4 := by
  intro g hg
  unfold idridGrades at hg
  cases predict_grades with
  | false =>
      simp only [Bool.false_eq_true, if_false] at hg
      exact npRandint_mem_range _ rng g hg
  | true =>
      rw [if_pos rfl, List.mem_map] at hg
      obtain ⟨n, hn, hgn⟩ := hg
      rw [predict_idrid, List.mem_map] at hn
      obtain ⟨r, _, hnr⟩ := hn
      have hne : model (getCellD r "Image") ≠ [] := by
        intro hnil
        have := hm (getCellD r "Image")
        rw [hnil] at this
        simp at this
      have hlt := torchArgmax_lt _ hne
      rw [hm (getCellD r "Image")] at hlt
      rw [hnr] at hlt
      subst hgn
      simp only [Int.ofNat_eq_coe]
      omega

/-- C6: every Grade the split script assigns to an IDRiD record is an integer
in `[0, 4]`, whether grades are drawn by `np.random.randint(0, 5, ...)` or
predicted by argmax over the 5-class classifier. -/
theorem claim_C6 (processed_dir : String) (predict_grades : Bool)
    (imgFiles : List String) (rng : Nat → Nat) (model : String → List ℚ)
    (hm : ∀ s, (model s).length = 5) :
    ∀ r ∈ (make_idrid processed_dir predict_grades imgFiles rng model).rows,
      ∃ g : Int, getCell r "Grade" = some (toString g) ∧ 0 ≤ g ∧ g ≤ 4 := by
  intro r hr
  unfold make_idrid at hr
  simp only [setCol_rows, setColVals_rows, List.mem_map] at hr
  obtain ⟨r', hr', hrr⟩ := hr
  obtain ⟨r0, v, _, hv, hr'0⟩ := of_mem_zipWith hr'
  simp only [List.mem_map] at hv
  obtain ⟨g, hg, hvg⟩ := hv
  refine ⟨g, ?_, (idridGrades_mem_range predict_grades model _ rng hm g hg)⟩
  subst hrr hr'0 hvg
  rw [getCell_setCell_ne _ _ (by decide : ("Grade" : String) ≠ "Source"),
    getCell_setCell_self]

/-- C6 witness: a concrete IDRiD frame (random-grade mode) whose first row's
Grade cell holds an integer in `[0, 4]`. -/
theorem claim_C6_witness :
    ∃ g : Int, getCell [("File", "a.png"), ("Image", "p/img/a.png"),
      ("Label", "p/label/a.png"), ("Instance", "p/inst/a.png"),
      ("Grade", "0"), ("Source", "IDRiD")] "Grade" = some (toString g) ∧
      0 ≤ g ∧ g ≤ 4 :=
  claim_C6 "p" false ["a.png"] (fun _ => 0) (fun _ => [0, 1, 2, 3, 4])
    (fun _ => rfl) _ (by decide)

/-- Concrete CLI options used by the closed witnesses. -/
def sampleArgs : Args where
  fgadr_original_dir := "orig"
  fgadr_processed_dir := "proc"
  idrid_processed_dir := "idrid"
  diaretdb1_processed_dir := "dia"
  train_size := 1 / 2
  seed := 0
  exclude_grader_1 := false
  predict_grades := false

/-- Concrete external state used by the closed witnesses. -/
def sampleEnv : Env where
  fgadrCsv := [("0001_2.png", "3")]
  idridFiles := ["b.png"]
  diaretdb1Files := ["c.png"]
  rng := fun _ => 0
  rng2 := fun _ => 0
  model := fun _ => [0, 1, 2, 3, 4]
  shuffle := id

/-- C2: `main` evaluates the global name `make_diaretdb1`, which is neither
defined nor imported in the module, so every run that gets past building the
FGADR and IDRiD frames raises `NameError` there — after both frames are
built and before any CSV file is written. -/
theorem claim_C2 (opt : Args) (env : Env) (fgadr_df : DataFrame)
    (hfg : make_fgadr opt.fgadr_original_dir opt.fgadr_processed_dir
      opt.exclude_grader_1 env.fgadrCsv = Except.ok fgadr_df) :
    ("make_diaretdb1" ∈ splitDatasetsGlobals) = False ∧
    (mainRun opt env).2 = Except.error (PyError.nameError "make_diaretdb1") ∧
    (mainRun opt env).1.framesBuilt = ["FGADR", "IDRiD"] ∧
    (mainRun opt env).1.csvsWritten = [] := by
  have hres : resolveGlobal "make_diaretdb1" =
      Except.error (PyError.nameError "make_diaretdb1") := rfl
  refine ⟨by simp [splitDatasetsGlobals], ?_, ?_, ?_⟩ <;>
    · unfold mainRun
      rw [hfg, hres]

/-- C2 witness: concrete options and environment where the FGADR frame builds
and `main` still dies with the `NameError`. -/
theorem claim_C2_witness :
    (mainRun sampleArgs sampleEnv).2 =
      Except.error (PyError.nameError "make_diaretdb1") :=
  (claim_C2 sampleArgs sampleEnv _ rfl).2.1

/-- A string has the form `r ++ t` for some prefix `r` exactly when `t` is a
suffix of it. -/
theorem exists_append_eq_iff (s t : String) :
    (∃ r : String, s = r ++ t) ↔ t.data <:+ s.data := by
  constructor
  · rintro ⟨r, rfl⟩
    exact ⟨r.data, rfl⟩
  · rintro ⟨l, hl⟩
    refine ⟨⟨l⟩, ?_⟩
    exact (congrArg String.mk hl).symm

/-- C1 counterexample: the FGADR frame built from a one-row CSV puts the
record's Image path under `Original_Images` of the original directory, which
is not of the form `<root>/img/<file>` for any root. -/
theorem claim_C1_counterexample :
    (make_fgadr "orig" "proc" false [("0001_2.png", "3")]).map
        (fun df => df.rows.map (fun r => getCell r "Image")) =
      Except.ok [some "orig/Original_Images/0001_2.png"] ∧
    ¬ ∃ root : String,
        "orig/Original_Images/0001_2.png" = root ++ "/img/" ++ "0001_2.png" := by
  constructor
  · rfl
  · rintro ⟨root, hroot⟩
    rw [String.append_assoc] at hroot
    have hsuff := (exists_append_eq_iff "orig/Original_Images/0001_2.png"
      ("/img/" ++ "0001_2.png")).1 ⟨root, hroot⟩
    revert hsuff
    decide

/-- The `File` cell of a one-column glob row. -/
theorem getCellD_singleRow (f : String) :
    getCellD [("File", f)] "File" = f := by
  simp [getCellD, getCell]

/-- Cell contents of a finished IDRiD-style row: the `absRow` path columns
survive the later `Grade` and `Source` writes, and `File` is untouched. -/
theorem idridRow_cells (image_path label_path inst_path v tag : String)
    (r1 : Row) :
    getCellD (setCell (setCell (absRow image_path label_path inst_path r1)
        "Grade" v) "Source" tag) "File" = getCellD r1 "File" ∧
    getCell (setCell (setCell (absRow image_path label_path inst_path r1)
        "Grade" v) "Source" tag) "Image" =
      some (image_path ++ "/" ++ getCellD r1 "File") ∧
    getCell (setCell (setCell (absRow image_path label_path inst_path r1)
        "Grade" v) "Source" tag) "Label" =
      some (label_path ++ "/" ++ getCellD r1 "File") ∧
    getCell (setCell (setCell (absRow image_path label_path inst_path r1)
        "Grade" v) "Source" tag) "Instance" =
      some (inst_path ++ "/" ++ getCellD r1 "File") := by
  obtain ⟨h1, h2, h3, _⟩ := absRow_getCell image_path label_path inst_path r1
  refine ⟨?_, ?_, ?_, ?_⟩
  · rw [getCellD_setCell_ne _ _ (by decide : ("File" : String) ≠ "Source"),
      getCellD_setCell_ne _ _ (by decide : ("File" : String) ≠ "Grade"),
      absRow_getCellD_File]
  · rw [getCell_setCell_ne _ _ (by decide : ("Image" : String) ≠ "Source"),
      getCell_setCell_ne _ _ (by decide : ("Image" : String) ≠ "Grade"), h1]
  · rw [getCell_setCell_ne _ _ (by decide : ("Label" : String) ≠ "Source"),
      getCell_setCell_ne _ _ (by decide : ("Label" : String) ≠ "Grade"), h2]
  · rw [getCell_setCell_ne _ _ (by decide : ("Instance" : String) ≠ "Source"),
      getCell_setCell_ne _ _ (by decide : ("Instance" : String) ≠ "Grade"), h3]

/-- Cell contents of a finished FGADR row. -/
theorem fgadrRow_cells (image_path label_path inst_path tag : String)
    (r1 : Row) :
    getCellD (setCell (absRow image_path label_path inst_path r1)
        "Source" tag) "File" = getCellD r1 "File" ∧
    getCell (setCell (absRow image_path label_path inst_path r1)
        "Source" tag) "Image" =
      some (image_path ++ "/" ++ getCellD r1 "File") ∧
    getCell (setCell (absRow image_path label_path inst_path r1)
        "Source" tag) "Label" =
      some (label_path ++ "/" ++ getCellD r1 "File") ∧
    getCell (setCell (absRow image_path label_path inst_path r1)
        "Source" tag) "Instance" =
      some (inst_path ++ "/" ++ getCellD r1 "File") := by
  obtain ⟨h1, h2, h3, _⟩ := absRow_getCell image_path label_path inst_path r1
  refine ⟨fgadrRow_File _ _ _ _ r1, ?_, ?_, ?_⟩
  · rw [getCell_setCell_ne _ _ (by decide : ("Image" : String) ≠ "Source"), h1]
  · rw [getCell_setCell_ne _ _ (by decide : ("Label" : String) ≠ "Source"), h2]
  · rw [getCell_setCell_ne _ _ (by decide : ("Instance" : String) ≠ "Source"),
      h3]

/-- Every row of a `make_idrid`-style frame is a glob row pushed through
`absRow`, a `Grade` write and a `Source` write. -/
theorem make_idrid_rows_shape (processed_dir : String) (predict_grades : Bool)
    (imgFiles : List String) (rng : Nat → Nat) (model : String → List ℚ) :
    ∀ r ∈ (make_idrid processed_dir predict_grades imgFiles rng model).rows,
      ∃ r1 v, r = setCell (setCell (absRow (processed_dir ++ "/img")
        (processed_dir ++ "/label") (processed_dir ++ "/inst") r1)
        "Grade" v) "Source" "IDRiD" := by
  intro r hr
  unfold make_idrid at hr
  simp only [setCol_rows, setColVals_rows, make_absolute_paths_rows,
    List.mem_map] at hr
  obtain ⟨r', hr', hrr⟩ := hr
  obtain ⟨r0, v, hr0, _, hr'0⟩ := of_mem_zipWith hr'
  subst hrr hr'0
  simp only [List.mem_map] at hr0
  obtain ⟨rb, _, hrb⟩ := hr0
  exact ⟨rb, v, by rw [hrb]⟩

/-- Every row of a successfully built FGADR frame is a CSV row pushed
through `absRow` and a `Source` write. -/
theorem make_fgadr_rows_shape (original_dir processed_dir : String)
    (ex : Bool) (csv : List (String × String)) (df : DataFrame)
    (hfg : make_fgadr original_dir processed_dir ex csv = Except.ok df) :
    ∀ r ∈ df.rows, ∃ r1, r = setCell (absRow
      (original_dir ++ "/Original_Images") (processed_dir ++ "/label")
      (processed_dir ++ "/inst") r1) "Source" "FGADR" := by
  unfold make_fgadr at hfg
  cases ex with
  | false =>
      rw [if_neg (by simp)] at hfg
      simp only [exceptPure, exceptBind_ok] at hfg
      injection hfg with hfg
      subst hfg
      intro r hr
      simp only [setCol_rows, make_absolute_paths_rows, List.mem_map] at hr
      obtain ⟨r0, hr0, hrr⟩ := hr
      obtain ⟨r1, _, hr1⟩ := hr0
      exact ⟨r1, by rw [← hrr, ← hr1]⟩
  | true =>
      rw [if_pos rfl] at hfg
      cases hf : filterGraderRows
          ((⟨["File", "Grade"],
            csv.map fun p => [("File", p.1), ("Grade", p.2)]⟩ :
              DataFrame).rows) with
      | error e => rw [hf] at hfg; exact absurd hfg (by simp)
      | ok kept =>
          rw [hf] at hfg
          simp only [exceptBind_ok, exceptPure] at hfg
          injection hfg with hfg
          subst hfg
          intro r hr
          simp only [setCol_rows, make_absolute_paths_rows, List.mem_map] at hr
          obtain ⟨r0, hr0, hrr⟩ := hr
          obtain ⟨a, _, ha⟩ := hr0
          exact ⟨a, by rw [← hrr, ← ha]⟩

/-- C1 (amended): IDRiD records do have all three paths rooted at the single
processed root's `img`, `label` and `inst` subdirectories, but FGADR records
do not follow the claimed layout: their Image path is under
`<fgadr_original_dir>/Original_Images` while Label and Instance are under the
distinct processed root's `label` and `inst`. -/
theorem claim_C1 (processed_dir : String) (predict_grades : Bool)
    (imgFiles : List String) (rng : Nat → Nat) (model : String → List ℚ)
    (original_dir fgadr_processed_dir : String) (ex : Bool)
    (csv : List (String × String)) (df : DataFrame)
    (hfg : make_fgadr original_dir fgadr_processed_dir ex csv = Except.ok df) :
    (∀ r ∈ (make_idrid processed_dir predict_grades imgFiles rng model).rows,
      getCell r "Image" =
        some (processed_dir ++ "/img" ++ "/" ++ getCellD r "File") ∧
      getCell r "Label" =
        some (processed_dir ++ "/label" ++ "/" ++ getCellD r "File") ∧
      getCell r "Instance" =
        some (processed_dir ++ "/inst" ++ "/" ++ getCellD r "File")) ∧
    (∀ r ∈ df.rows,
      getCell r "Image" =
        some (original_dir ++ "/Original_Images" ++ "/" ++ getCellD r "File") ∧
      getCell r "Label" =
        some (fgadr_processed_dir ++ "/label" ++ "/" ++ getCellD r "File") ∧
      getCell r "Instance" =
        some (fgadr_processed_dir ++ "/inst" ++ "/" ++ getCellD r "File")) := by
  constructor
  · intro r hr
    obtain ⟨r1, v, hshape⟩ := make_idrid_rows_shape processed_dir
      predict_grades imgFiles rng model r hr
    obtain ⟨hF, hI, hL, hN⟩ := idridRow_cells (processed_dir ++ "/img")
      (processed_dir ++ "/label") (processed_dir ++ "/inst") v "IDRiD" r1
    subst hshape
    rw [hF, hI, hL, hN]
    exact ⟨rfl, rfl, rfl⟩
  · intro r hr
    obtain ⟨r1, hshape⟩ := make_fgadr_rows_shape original_dir
      fgadr_processed_dir ex csv df hfg r hr
    obtain ⟨hF, hI, hL, hN⟩ := fgadrRow_cells
      (original_dir ++ "/Original_Images") (fgadr_processed_dir ++ "/label")
      (fgadr_processed_dir ++ "/inst") "FGADR" r1
    subst hshape
    rw [hF, hI, hL, hN]
    exact ⟨rfl, rfl, rfl⟩

/-- The FGADR frame the witness options build. -/
def sampleFgadrDf : DataFrame where
  cols := ["File", "Grade", "Image", "Label", "Instance", "Source"]
  rows := [[("File", "0001_2.png"), ("Grade", "3"),
    ("Image", "orig/Original_Images/0001_2.png"),
    ("Label", "proc/label/0001_2.png"),
    ("Instance", "proc/inst/0001_2.png"), ("Source", "FGADR")]]

/-- The single IDRiD row the witness environment builds. -/
def sampleIdridRow : Row :=
  [("File", "b.png"), ("Image", "idrid/img/b.png"),
   ("Label", "idrid/label/b.png"), ("Instance", "idrid/inst/b.png"),
   ("Grade", "0"), ("Source", "IDRiD")]

/-- C1 (amended) witness: the concrete IDRiD row follows the single-root
layout and the concrete FGADR row puts Image under `Original_Images`. -/
theorem claim_C1_witness :
    getCell sampleIdridRow "Image" =
      some ("idrid" ++ "/img" ++ "/" ++ getCellD sampleIdridRow "File") ∧
    getCell (sampleFgadrDf.rows.headI) "Image" =
      some ("orig" ++ "/Original_Images" ++ "/" ++
        getCellD (sampleFgadrDf.rows.headI) "File") := by
  have h := claim_C1 "idrid" false ["b.png"] (fun _ => 0)
    (fun _ => [0, 1, 2, 3, 4]) "orig" "proc" false [("0001_2.png", "3")]
    sampleFgadrDf rfl
  exact ⟨(h.1 sampleIdridRow (by decide)).1,
    (h.2 sampleFgadrDf.rows.headI (by decide)).1⟩

/-- `train_test_split` on success partitions its input: train and test
together are a permutation of the rows, their lengths sum to the total, and
the train length is `floor(train_size * n)`. -/
theorem train_test_split_ok {α : Type} (rows : List α) (t : ℚ)
    (shuffle : List α → List α) (hsh : (shuffle rows).Perm rows)
    (tr te : List α)
    (h : train_test_split rows t shuffle = Except.ok (tr, te)) :
    (tr ++ te).Perm rows ∧ tr.length + te.length = rows.length ∧
    tr.length = sklearnNTrain t rows.length := by
  unfold train_test_split at h
  by_cases h1 : t ≤ 0 ∨ 1 ≤ t
  · rw [if_pos h1] at h
    exact absurd h (by simp)
  · rw [if_neg h1] at h
    by_cases h2 : sklearnNTrain t rows.length = 0
    · rw [if_pos h2] at h
      exact absurd h (by simp)
    · rw [if_neg h2] at h
      injection h with h
      injection h with h3 h4
      subst h3
      subst h4
      push_neg at h1
      obtain ⟨h1a, h1b⟩ := h1
      have hslen : (shuffle rows).length = rows.length := hsh.length_eq
      have hle : sklearnNTrain t rows.length ≤ rows.length := by
        unfold sklearnNTrain
        have hmul : t * (rows.length : ℚ) ≤ (rows.length : ℚ) :=
          mul_le_of_le_one_left (by positivity) h1b.le
        have hfl : ⌊t * (rows.length : ℚ)⌋ ≤ (rows.length : Int) := by
          calc ⌊t * (rows.length : ℚ)⌋ ≤ ⌊((rows.length : ℚ))⌋ :=
                Int.floor_le_floor hmul
            _ = (rows.length : Int) := Int.floor_natCast _
        omega
      refine ⟨?_, ?_, ?_⟩
      · rw [List.take_append_drop]
        exact hsh
      · rw [List.length_take, List.length_drop, hslen]
        omega
      · rw [List.length_take, hslen]
        omega

/-- Column list of a successfully built FGADR frame. -/
theorem make_fgadr_ok_cols (original_dir processed_dir : String) (ex : Bool)
    (csv : List (String × String)) (df : DataFrame)
    (h : make_fgadr original_dir processed_dir ex csv = Except.ok df) :
    df.cols = ["File", "Grade", "Image", "Label", "Instance", "Source"] := by
  unfold make_fgadr at h
  cases ex with
  | false =>
      rw [if_neg (by simp)] at h
      simp only [exceptPure, exceptBind_ok] at h
      injection h with h
      subst h
      rfl
  | true =>
      rw [if_pos rfl] at h
      cases hf : filterGraderRows
          ((⟨["File", "Grade"],
            csv.map fun p => [("File", p.1), ("Grade", p.2)]⟩ :
              DataFrame).rows) with
      | error e => rw [hf] at h; exact absurd h (by simp)
      | ok kept =>
          rw [hf] at h
          simp only [exceptBind_ok, exceptPure] at h
          injection h with h
          subst h
          rfl

/-- Column list of the IDRiD frame. -/
theorem make_idrid_cols (processed_dir : String) (predict_grades : Bool)
    (imgFiles : List String) (rng : Nat → Nat) (model : String → List ℚ) :
    (make_idrid processed_dir predict_grades imgFiles rng model).cols =
      ["File", "Image", "Label", "Instance", "Grade", "Source"] := rfl

/-- Column list of the modelled DIARETDB1 frame. -/
theorem make_diaretdb1_cols (processed_dir : String) (predict_grades : Bool)
    (imgFiles : List String) (rng : Nat → Nat) (model : String → List ℚ) :
    (make_diaretdb1 processed_dir predict_grades imgFiles rng model).cols =
      ["File", "Image", "Label", "Instance", "Grade", "Source"] := rfl

/-- Data columns of the combined frame after the `File` drop. -/
theorem combined_cols (fgadr idrid dia : DataFrame)
    (h1 : fgadr.cols = ["File", "Grade", "Image", "Label", "Instance",
      "Source"])
    (h2 : idrid.cols = ["File", "Image", "Label", "Instance", "Grade",
      "Source"])
    (h3 : dia.cols = ["File", "Image", "Label", "Instance", "Grade",
      "Source"]) :
    (dropCol (concatFrames [fgadr, idrid, dia]) "File").cols =
      ["Grade", "Image", "Label", "Instance", "Source"] := by
  show ((concatFrames [fgadr, idrid, dia]).cols).filter _ = _
  simp only [concatFrames, List.foldl_cons, List.foldl_nil, h1, h2, h3]
  decide

/-- Success shape of `mainTail`: exactly the three CSV files are produced,
`all` holding the combined frame and `train`/`test` its split halves. -/
theorem mainTail_ok_shape (fgadr idrid dia : DataFrame) (t : ℚ)
    (shuffle : List Row → List Row) (outs : List (String × DataFrame))
    (h : mainTail fgadr idrid dia t shuffle = Except.ok outs) :
    ∃ tr te,
      train_test_split
        (dropCol (concatFrames [fgadr, idrid, dia]) "File").rows t shuffle =
        Except.ok (tr, te) ∧
      outs =
        [("data/all.csv", dropCol (concatFrames [fgadr, idrid, dia]) "File"),
         ("data/train.csv",
           ⟨(dropCol (concatFrames [fgadr, idrid, dia]) "File").cols, tr⟩),
         ("data/test.csv",
           ⟨(dropCol (concatFrames [fgadr, idrid, dia]) "File").cols, te⟩)] := by
  simp only [mainTail] at h
  cases hsp : train_test_split
      (dropCol (concatFrames [fgadr, idrid, dia]) "File").rows t shuffle with
  | error e => rw [hsp] at h; exact absurd h (by simp)
  | ok pr =>
      obtain ⟨tr, te⟩ := pr
      rw [hsp] at h
      injection h with h
      exact ⟨tr, te, rfl, h.symm⟩

/-- `mainTail` succeeds whenever the train fraction is a genuine fraction
and the train set is non-empty. -/
theorem mainTail_isOk (fgadr idrid dia : DataFrame) (t : ℚ)
    (shuffle : List Row → List Row) (h1 : 0 < t) (h2 : t < 1)
    (h3 : sklearnNTrain t
      (dropCol (concatFrames [fgadr, idrid, dia]) "File").rows.length ≠ 0) :
    ∃ outs, mainTail fgadr idrid dia t shuffle = Except.ok outs := by
  simp only [mainTail]
  unfold train_test_split
  rw [if_neg (by push_neg; exact ⟨h1, h2⟩)]
  rw [if_neg h3]
  exact ⟨_, rfl⟩

/-- The sample options and environment give a successful modelled run. -/
theorem sampleRun_ok :
    ∃ outs, mainRunModelled sampleArgs sampleEnv = Except.ok outs := by
  have hsk : sklearnNTrain ((1 : ℚ) / 2) 3 = 1 := by
    unfold sklearnNTrain
    rw [show ((1 : ℚ) / 2) * ((3 : Nat) : ℚ) = 3 / 2 by push_cast; ring]
    norm_num
  obtain ⟨outs, hout⟩ := mainTail_isOk sampleFgadrDf
    (make_idrid "idrid" false ["b.png"] (fun _ => 0) (fun _ => [0, 1, 2, 3, 4]))
    (make_diaretdb1 "dia" false ["c.png"] (fun _ => 0)
      (fun _ => [0, 1, 2, 3, 4]))
    ((1 : ℚ) / 2) id (by norm_num) (by norm_num)
    (by
      rw [show (dropCol (concatFrames [sampleFgadrDf,
        make_idrid "idrid" false ["b.png"] (fun _ => 0)
          (fun _ => [0, 1, 2, 3, 4]),
        make_diaretdb1 "dia" false ["c.png"] (fun _ => 0)
          (fun _ => [0, 1, 2, 3, 4])]) "File").rows.length = 3 from rfl]
      rw [hsk]
      norm_num)
  refine ⟨outs, ?_⟩
  unfold mainRunModelled
  rw [show make_fgadr sampleArgs.fgadr_original_dir
      sampleArgs.fgadr_processed_dir sampleArgs.exclude_grader_1
      sampleEnv.fgadrCsv = Except.ok sampleFgadrDf from rfl]
  exact hout

/-- C4: a successful run of the split script (with the missing
`make_diaretdb1` spec-modelled) writes exactly the three CSV files
`data/all.csv`, `data/train.csv` and `data/test.csv`, and each written frame
has exactly the data columns Image, Label, Instance, Grade, Source — the
`File` column having been dropped before writing. -/
theorem claim_C4 (opt : Args) (env : Env) (outs : List (String × DataFrame))
    (h : mainRunModelled opt env = Except.ok outs) :
    outs.map Prod.fst = ["data/all.csv", "data/train.csv", "data/test.csv"] ∧
    ∀ p ∈ outs, p.2.cols.Perm ["Image", "Label", "Instance", "Grade",
      "Source"] := by
  unfold mainRunModelled at h
  cases hfg : make_fgadr opt.fgadr_original_dir opt.fgadr_processed_dir
      opt.exclude_grader_1 env.fgadrCsv with
  | error e => rw [hfg] at h; exact absurd h (by simp)
  | ok fgadr =>
      rw [hfg] at h
      obtain ⟨tr, te, hsp, houts⟩ := mainTail_ok_shape _ _ _ _ _ _ h
      have hcols := combined_cols fgadr
        (make_idrid opt.idrid_processed_dir opt.predict_grades
          env.idridFiles env.rng env.model)
        (make_diaretdb1 opt.diaretdb1_processed_dir opt.predict_grades
          env.diaretdb1Files env.rng2 env.model)
        (make_fgadr_ok_cols _ _ _ _ _ hfg) rfl rfl
      subst houts
      refine ⟨rfl, ?_⟩
      intro p hp
      simp only [List.mem_cons, List.not_mem_nil, or_false] at hp
      rcases hp with rfl | rfl | rfl
      · show ((dropCol _ "File").cols).Perm _
        rw [hcols]
        decide
      · show ((dropCol _ "File").cols).Perm _
        rw [hcols]
        decide
      · show ((dropCol _ "File").cols).Perm _
        rw [hcols]
        decide

/-- C4 witness: the sample options and environment yield a successful run
with exactly the three CSV paths. -/
theorem claim_C4_witness :
    ∃ outs, mainRunModelled sampleArgs sampleEnv = Except.ok outs ∧
      outs.map Prod.fst =
        ["data/all.csv", "data/train.csv", "data/test.csv"] := by
  obtain ⟨outs, hout⟩ := sampleRun_ok
  exact ⟨outs, hout, (claim_C4 sampleArgs sampleEnv outs hout).1⟩

/-- C5: the split partitions the combined FGADR+IDRiD+DIARETDB1 frame: train
and test rows together are a permutation of `data/all.csv`'s rows, their
lengths sum to the combined length, and the train length is
`floor(train_size * n)` for the `--train_size` argument. -/
theorem claim_C5 (opt : Args) (env : Env) (outs : List (String × DataFrame))
    (hsh : ∀ l : List Row, (env.shuffle l).Perm l)
    (h : mainRunModelled opt env = Except.ok outs) :
    ∃ allDf trainDf testDf,
      outs = [("data/all.csv", allDf), ("data/train.csv", trainDf),
        ("data/test.csv", testDf)] ∧
      (trainDf.rows ++ testDf.rows).Perm allDf.rows ∧
      trainDf.rows.length + testDf.rows.length = allDf.rows.length ∧
      trainDf.rows.length = sklearnNTrain opt.train_size allDf.rows.length := by
  unfold mainRunModelled at h
  cases hfg : make_fgadr opt.fgadr_original_dir opt.fgadr_processed_dir
      opt.exclude_grader_1 env.fgadrCsv with
  | error e => rw [hfg] at h; exact absurd h (by simp)
  | ok fgadr =>
      rw [hfg] at h
      obtain ⟨tr, te, hsp, houts⟩ := mainTail_ok_shape _ _ _ _ _ _ h
      obtain ⟨hperm, hsum, hlen⟩ := train_test_split_ok _ _ _ (hsh _) _ _ hsp
      subst houts
      exact ⟨_, _, _, rfl, hperm, hsum, hlen⟩

/-- C5 witness: the sample run splits its 3 combined records into a
1-row train set and a 2-row test set. -/
theorem claim_C5_witness :
    ∃ outs allDf trainDf testDf,
      mainRunModelled sampleArgs sampleEnv = Except.ok outs ∧
      outs = [("data/all.csv", allDf), ("data/train.csv", trainDf),
        ("data/test.csv", testDf)] ∧
      (trainDf.rows ++ testDf.rows).Perm allDf.rows ∧
      trainDf.rows.length + testDf.rows.length = allDf.rows.length ∧
      trainDf.rows.length = sklearnNTrain sampleArgs.train_size
        allDf.rows.length := by
  obtain ⟨outs, hout⟩ := sampleRun_ok
  obtain ⟨a, tr, te, h1, h2, h3, h4⟩ :=
    claim_C5 sampleArgs sampleEnv outs (fun l => List.Perm.refl l) hout
  exact ⟨outs, a, tr, te, hout, h1, h2, h3, h4⟩

/-- Concrete dataset state used by the `__getitem__` frame witness. -/
def sampleGetDs : CopyPasteDataset where
  label_path := "L"
  transformed_path := "T"
  files := ["f.png"]
  grades := [2]
  label_transform := none
  image_transform := none
  common_transform := none
  return_label := true
  return_grade := true
  return_transformed := true

/-- Concrete filesystem used by the `__getitem__` frame witness. -/
def sampleFs : String → Option String := fun p =>
  if p = "L/f.png" then some "lbl"
  else if p = "T/f.png" then some "img" else none

/-- C9 witness: a concrete `__getitem__` call that succeeds, leaves the state
unchanged and reads only the two lazy paths of the requested index. -/
theorem claim_C9_witness :
    ∃ out, sampleGetDs.getitem sampleFs 0 = Except.ok out ∧
      out.2.1 = sampleGetDs ∧
      ∃ name, pyIndex sampleGetDs.files 0 = some name ∧
        ∀ p ∈ out.2.2, p = sampleGetDs.label_path ++ "/" ++ name ∨
          p = sampleGetDs.transformed_path ++ "/" ++ name := by
  have h : sampleGetDs.getitem sampleFs 0 =
      Except.ok (⟨some "lbl", some "img", some 2⟩, sampleGetDs,
        ["L/f.png", "T/f.png"]) := rfl
  obtain ⟨_, h2, h3⟩ := claim_C9 sampleGetDs sampleFs 0 _ h
  exact ⟨_, h, h2, h3⟩

end SemanticRetina
